import Mathlib

/-!
Shallow embedding of `taildrop.py` (Nautilus Taildrop extension).

The embedding covers the `Taildrop` class: the TTL-gated device cache
(`get_devices`), cache invalidation (`invalidate_cache`), the warn-once
missing-binary notification (`_warn_missing`), and the fire-and-forget
dispatchers (`send_files`, `receive_files`) together with the `_notify`
helper.  The external world (monotonic clock, availability of the
`tailscale` binary, outcome of `subprocess.run`, JSON parsing of stdout)
is supplied as explicit environment data.  Python floats returned by
`time.monotonic()` are modelled as rationals; `json.loads` is modelled
by its outcome (`Except` of an error text or a parsed status payload).
Python string primitives (`split`, `lower`, `strip`, `basename`) are
modelled structurally over the character list of the string, with
Python's code-point semantics (lowercasing is modelled on the ASCII
letters, which is where it agrees across both languages).
-/

/-- `shutil.which("tailscale") or "/usr/bin/tailscale"` — the resolved path of
the external binary.  The claims never depend on its value, only on it being
one fixed string. -/
def TAILSCALE_BIN : String := "/usr/bin/tailscale"

/-- One peer record of the parsed `tailscale status --json` payload: the
fields `get_devices` reads via `data.get(...)`.  A `none` models an absent
key. `UserID` is a JSON number. -/
structure PeerData where
  HostName : Option String
  DNSName  : Option String
  OS       : Option String
  Online   : Option Bool
  UserID   : Option Int
deriving Repr, DecidableEq

/-- The parsed status payload as `get_devices` projects it:
`status.get("Self", ...).get("UserID")` and `status.get("Peer", ...).items()`
in dict-insertion order. -/
structure Status where
  selfUserID : Option Int
  peers : List (String × PeerData)
deriving Repr, DecidableEq

/-- A device entry as built by the loop body of `get_devices`. -/
structure Item where
  hostname  : String
  label     : String
  is_online : Bool
deriving Repr, DecidableEq

/-- Python truthiness of `self_user_id` (`None` and `0` are falsy). -/
def pyTruthyInt : Option Int → Bool
  | none => false
  | some n => n != 0

/-- The two `continue` filters of the peer loop (lines 118-124):
keep a peer unless its `HostName` is the sentinel `"funnel-ingress-node"`,
or `self_user_id` is truthy and the peer's `UserID` differs from it
(an absent peer `UserID` differs from any truthy `self_user_id`). -/
def includePeer (selfUID : Option Int) (d : PeerData) : Bool :=
  !(d.HostName == some "funnel-ingress-node")
    && !(pyTruthyInt selfUID && d.UserID != selfUID)

/-- `dns.split(".")[0]`: the characters before the first `'.'`. -/
def firstLabel (s : String) : String :=
  String.mk (s.data.takeWhile fun c => c ≠ '.')

/-- `clean_name` computation (lines 126-129): first `"."`-segment of a
non-empty `DNSName`, else `HostName` (defaulting to `"Unknown"`), and an
empty result is replaced by `"Unknown"`. -/
def cleanName (d : PeerData) : String :=
  let dns := d.DNSName.getD ""
  let name := if dns = "" then d.HostName.getD "Unknown" else firstLabel dns
  if name = "" then "Unknown" else name

/-- The loop body (lines 126-140): one menu item per surviving peer. -/
def mkItem (d : PeerData) : Item :=
  let clean := cleanName d
  let os_name := d.OS.getD ""
  let is_online := d.Online.getD false
  let status_icon := if is_online then "🟢" else "🔴"
  let os_part := if os_name = "" then "" else " (" ++ os_name ++ ")"
  ⟨clean, status_icon ++ " " ++ clean ++ os_part, is_online⟩

/-- `hostname.lower()` as the list of code points Python compares:
ASCII uppercase letters are shifted to lowercase, everything else kept. -/
def pyLowerCodes (s : String) : List Nat :=
  s.data.map fun c => if 65 ≤ c.toNat ∧ c.toNat ≤ 90 then c.toNat + 32 else c.toNat

/-- Lexicographic comparison of code-point lists, the order Python uses
on `str`. -/
def natListLE : List Nat → List Nat → Bool
  | [], _ => true
  | _ :: _, [] => false
  | a :: as, b :: bs =>
    if a < b then true
    else if b < a then false
    else natListLE as bs

/-- The sort key comparison of line 143: tuple order on
`(not is_online, hostname.lower())` — `False < True`, so online entries
come first, ties broken by lowercased name. -/
def itemLE (a b : Item) : Bool :=
  if a.is_online == b.is_online then natListLE (pyLowerCodes a.hostname) (pyLowerCodes b.hostname)
  else a.is_online

/-- `itemLE` as a relation, for `List.insertionSort`. -/
def ItemR (a b : Item) : Prop := itemLE a b = true

instance : DecidableRel ItemR := fun a b => instDecidableEqBool (itemLE a b) true

/-- The raw (unsorted) item list the peer loop of `get_devices`
accumulates. -/
def rawItems (st : Status) : List Item :=
  (st.peers.filter fun p => includePeer st.selfUserID p.2).map fun p => mkItem p.2

/-- The device-list derivation of `get_devices` (lines 113-143): filter the
peers, build the items in iteration order, and stable-sort them by the key
`(not is_online, hostname.lower())` (Python `list.sort` is stable; a stable
sort by a total preorder is modelled by insertion sort). -/
def buildDevices (st : Status) : List Item :=
  List.insertionSort ItemR (rawItems st)

lemma natListLE_total : ∀ a b : List Nat, natListLE a b = true ∨ natListLE b a = true := by
  intro a
  induction a with
  | nil => intro b; left; rfl
  | cons x xs ih =>
    intro b
    cases b with
    | nil => right; rfl
    | cons y ys =>
      by_cases hxy : x < y
      · left; simp [natListLE, hxy]
      · by_cases hyx : y < x
        · right; simp [natListLE, hyx]
        · have hxy' : ¬ y < x := hyx
          rcases ih ys with h | h
          · left; simp [natListLE, hxy, hyx, h]
          · right; simp [natListLE, hxy, hyx, h]

lemma natListLE_trans :
    ∀ a b c : List Nat, natListLE a b = true → natListLE b c = true → natListLE a c = true := by
  intro a
  induction a with
  | nil => intro b c _ _; rfl
  | cons x xs ih =>
    intro b c hab hbc
    cases b with
    | nil => simp [natListLE] at hab
    | cons y ys =>
      cases c with
      | nil => simp [natListLE] at hbc
      | cons z zs =>
        by_cases hxz : x < z
        · simp [natListLE, hxz]
        · by_cases hzx : z < x
          · exfalso
            by_cases hxy : x < y
            · by_cases hyz : y < z
              · omega
              · by_cases hzy : z < y
                · simp [natListLE, hyz, hzy] at hbc
                · omega
            · by_cases hyx : y < x
              · simp [natListLE, hxy, hyx] at hab
              · by_cases hyz : y < z
                · omega
                · by_cases hzy : z < y
                  · simp [natListLE, hyz, hzy] at hbc
                  · omega
          · have hx : ¬ x < z := hxz
            simp [natListLE, hxz, hzx]
            by_cases hxy : x < y
            · by_cases hyz : y < z
              · omega
              · by_cases hzy : z < y
                · simp [natListLE, hyz, hzy] at hbc
                · omega
            · by_cases hyx : y < x
              · simp [natListLE, hxy, hyx] at hab
              · by_cases hyz : y < z
                · omega
                · by_cases hzy : z < y
                  · simp [natListLE, hyz, hzy] at hbc
                  · simp [natListLE, hxy, hyx] at hab
                    simp [natListLE, hyz, hzy] at hbc
                    exact ih ys zs hab hbc

lemma itemLE_total : ∀ a b : Item, ItemR a b ∨ ItemR b a := by
  intro a b
  unfold ItemR itemLE
  cases ha : a.is_online <;> cases hb : b.is_online <;> simp
  · exact natListLE_total _ _
  · exact natListLE_total _ _

lemma itemLE_trans : ∀ a b c : Item, ItemR a b → ItemR b c → ItemR a c := by
  intro a b c hab hbc
  unfold ItemR itemLE at *
  cases ha : a.is_online <;> cases hb : b.is_online <;> cases hc : c.is_online <;>
    simp_all
  · exact natListLE_trans _ _ _ hab hbc
  · exact natListLE_trans _ _ _ hab hbc

instance : IsTotal Item ItemR := ⟨itemLE_total⟩

instance : IsTrans Item ItemR := ⟨itemLE_trans⟩

/-- The built device list is sorted with respect to the key comparison of
line 143. -/
lemma buildDevices_pairwise (st : Status) : (buildDevices st).Pairwise ItemR :=
  List.sorted_insertionSort ItemR (rawItems st)

/-- Sorting permutes: the built device list has exactly the items the peer
loop accumulated. -/
lemma buildDevices_perm (st : Status) : List.Perm (buildDevices st) (rawItems st) :=
  List.perm_insertionSort ItemR (rawItems st)

/-!
## Cache state machine

The class-level mutable fields of `Taildrop` (lines 52-55) and one
`get_devices()` call (lines 72-148) as a state-transition function.
-/

/-- The class-level fields `_devices_cache`, `_last_cache_time`,
`_tailscale_missing_warned` (lines 52-55). -/
structure CacheState where
  devices_cache : List Item
  last_cache_time : ℚ
  tailscale_missing_warned : Bool
deriving Repr, DecidableEq

/-- `_CACHE_TTL = 15` seconds (line 54). -/
def CACHE_TTL : ℚ := 15

/-- The process-start state: empty cache, timestamp `0.0`, warning not yet
emitted (lines 52-55). -/
def initialState : CacheState := ⟨[], 0, false⟩

/-- A desktop notification as `_notify` receives it: title, message, icon. -/
structure Notif where
  title : String
  message : String
  icon : String
deriving Repr, DecidableEq

/-- Python `stderr.strip()`: leading and trailing ASCII whitespace removed. -/
def pyStrip (s : String) : String :=
  let ws : Char → Bool := fun c =>
    c = ' ' ∨ c = '\t' ∨ c = '\n' ∨ c = '\r' ∨ c = '\x0b' ∨ c = '\x0c'
  String.mk (((s.data.dropWhile ws).reverse.dropWhile ws).reverse)

/-- The `_warn_missing` notification (lines 62-64). -/
def missingNotif : Notif :=
  ⟨"Tailscale not found", "Binary not found: " ++ TAILSCALE_BIN, "dialog-error"⟩

/-- The `TimeoutExpired` notification (lines 91-92). -/
def timeoutNotif : Notif :=
  ⟨"Tailscale", "Timeout while retrieving devices.", "dialog-warning"⟩

/-- The `OSError` notification (lines 95-96); `msg` is the exception text. -/
def launchErrorNotif (msg : String) : Notif :=
  ⟨"Tailscale Error", "Unable to launch tailscale: " ++ msg, "dialog-error"⟩

/-- The non-zero-exit notification (lines 100-102):
`process.stderr.strip() or "Unknown error"`. -/
def statusErrorNotif (stderr : String) : Notif :=
  let m := if pyStrip stderr = "" then "Unknown error" else pyStrip stderr
  ⟨"Tailscale Error", "Status error: " ++ m, "dialog-error"⟩

/-- The `JSONDecodeError` notification (lines 109-110); `exc` is the
exception text. -/
def invalidJSONNotif (exc : String) : Notif :=
  ⟨"Tailscale Error", "Invalid JSON response: " ++ exc, "dialog-error"⟩

instance {α β : Type} [DecidableEq α] [DecidableEq β] : DecidableEq (Except α β)
  | .error a, .error b => decidable_of_iff (a = b) (by simp)
  | .error _, .ok _ => .isFalse (by simp)
  | .ok _, .error _ => .isFalse (by simp)
  | .ok a, .ok b => decidable_of_iff (a = b) (by simp)

/-- Outcome of the `subprocess.run([TAILSCALE_BIN, "status", "--json"], ...)`
call (lines 83-97), combined with the subsequent `json.loads(process.stdout)`
outcome: `timeoutExpired` and `osError` are the two caught launch
exceptions; `completed` carries the exit code, the JSON-parse outcome of
stdout (`Except` of the `JSONDecodeError` text or the parsed payload), and
stderr. -/
inductive RunResult where
  | timeoutExpired
  | osError (msg : String)
  | completed (returncode : Int) (stdout : Except String Status) (stderr : String)
deriving Repr, DecidableEq

/-- A refresh attempt succeeds when the command exits `0` and its stdout
parses as JSON (lines 99-111). -/
def RunResult.isSuccess : RunResult → Bool
  | .completed rc (.ok _) _ => rc == 0
  | _ => false

/-- The external world one `get_devices()` call observes: the value of
`time.monotonic()`, the result of `_tailscale_available()`, and the outcome
of the status query (consulted only if a refresh is attempted). -/
structure GetEnv where
  now : ℚ
  available : Bool
  run : RunResult
deriving Repr, DecidableEq

/-- What one `get_devices()` call produces: the updated class fields, the
returned list, the emitted notifications in order, and how many external
status queries were issued (`0` or `1`). -/
structure GetOutput where
  state : CacheState
  ret : List Item
  notifs : List Notif
  queries : Nat
deriving Repr, DecidableEq

/-- The cache-hit test of line 75:
`now - cls._last_cache_time < cls._CACHE_TTL and cls._devices_cache`
(a Python list is truthy when non-empty). -/
def cacheHitB (s : CacheState) (e : GetEnv) : Bool :=
  decide (e.now - s.last_cache_time < CACHE_TTL) && !s.devices_cache.isEmpty

/-- One `get_devices()` call (lines 72-148). -/
def getDevices (s : CacheState) (e : GetEnv) : GetOutput :=
  if cacheHitB s e then ⟨s, s.devices_cache, [], 0⟩
  else if e.available = false then
    -- `_warn_missing` (lines 59-65) then `return cls._devices_cache` (line 80)
    if s.tailscale_missing_warned = false then
      ⟨⟨s.devices_cache, s.last_cache_time, true⟩, s.devices_cache, [missingNotif], 0⟩
    else ⟨s, s.devices_cache, [], 0⟩
  else
    match e.run with
    | .timeoutExpired => ⟨s, s.devices_cache, [timeoutNotif], 1⟩
    | .osError msg => ⟨s, s.devices_cache, [launchErrorNotif msg], 1⟩
    | .completed rc out stderr =>
      if rc ≠ 0 then ⟨s, s.devices_cache, [statusErrorNotif stderr], 1⟩
      else
        match out with
        | .error exc => ⟨s, s.devices_cache, [invalidJSONNotif exc], 1⟩
        | .ok payload =>
          -- lines 113-148: build, sort, store, reset the warning flag
          let items := buildDevices payload
          ⟨⟨items, e.now, false⟩, items, [], 1⟩

/-- `invalidate_cache` (lines 67-70): reset `_last_cache_time` to `0.0`. -/
def invalidate_cache (s : CacheState) : CacheState :=
  ⟨s.devices_cache, 0, s.tailscale_missing_warned⟩

/-- A sequence of `get_devices()` calls: final state and all emitted
notifications in order. -/
def runGets (s : CacheState) : List GetEnv → CacheState × List Notif
  | [] => (s, [])
  | e :: es =>
    ((runGets (getDevices s e).state es).1,
      (getDevices s e).notifs ++ (runGets (getDevices s e).state es).2)

/-- Number of missing-binary notifications (identified by the
`_warn_missing` title) in a notification trace. -/
def countMissing (ns : List Notif) : Nat :=
  (ns.filter fun n => n.title == "Tailscale not found").length

/-!
## Exception-aware model

`_notify` (lines 24-40) first tries `subprocess.run(["systemd-run", ...])`,
catching `FileNotFoundError`, and falls back to
`subprocess.Popen(["notify-send", ...])` — whose own `FileNotFoundError` is
NOT caught and propagates to the caller.  The dispatchers `send_files` and
`receive_files` have the same shape around their transfer command.  The
exception-aware functions below return `Except`: a `.error` is an
exception escaping the operation.
-/

/-- A Python exception escaping an operation; `fileNotFound b` is the
`FileNotFoundError` raised when spawning the absent executable `b`. -/
inductive PyExc where
  | fileNotFound (binary : String)
deriving Repr, DecidableEq

/-- Presence of the two executables `_notify` may spawn. -/
structure NotifyEnv where
  systemdRun : Bool
  notifySend : Bool
deriving Repr, DecidableEq

/-- `_notify` raises unless `systemd-run` is present or the fallback
`notify-send` spawn succeeds. -/
def notifyOk (n : NotifyEnv) : Bool := n.systemdRun || n.notifySend

/-- `_notify` (lines 24-40): returns the delivered notification, or the
uncaught `FileNotFoundError` of the fallback `Popen(["notify-send", ...])`. -/
def notifyRun (n : NotifyEnv) (msg : Notif) : Except PyExc Notif :=
  if n.systemdRun then .ok msg
  else if n.notifySend then .ok msg
  else .error (.fileNotFound "notify-send")

/-- `get_devices` with the exception behaviour of its `_notify` calls made
explicit: identical to `getDevices` except that every notification is
delivered through `notifyRun`, whose failure propagates (leaving the class
fields as they were at the raise point — in `_warn_missing` the flag is set
only after the successful `_notify`). -/
def getDevicesE (s : CacheState) (e : GetEnv) (nv : NotifyEnv) : Except PyExc GetOutput :=
  if cacheHitB s e then .ok ⟨s, s.devices_cache, [], 0⟩
  else if e.available = false then
    if s.tailscale_missing_warned = false then
      match notifyRun nv missingNotif with
      | .error ex => .error ex
      | .ok nf => .ok ⟨⟨s.devices_cache, s.last_cache_time, true⟩, s.devices_cache, [nf], 0⟩
    else .ok ⟨s, s.devices_cache, [], 0⟩
  else
    match e.run with
    | .timeoutExpired =>
      match notifyRun nv timeoutNotif with
      | .error ex => .error ex
      | .ok nf => .ok ⟨s, s.devices_cache, [nf], 1⟩
    | .osError msg =>
      match notifyRun nv (launchErrorNotif msg) with
      | .error ex => .error ex
      | .ok nf => .ok ⟨s, s.devices_cache, [nf], 1⟩
    | .completed rc out stderr =>
      if rc ≠ 0 then
        match notifyRun nv (statusErrorNotif stderr) with
        | .error ex => .error ex
        | .ok nf => .ok ⟨s, s.devices_cache, [nf], 1⟩
      else
        match out with
        | .error exc =>
          match notifyRun nv (invalidJSONNotif exc) with
          | .error ex => .error ex
          | .ok nf => .ok ⟨s, s.devices_cache, [nf], 1⟩
        | .ok payload =>
          let items := buildDevices payload
          .ok ⟨⟨items, e.now, false⟩, items, [], 1⟩

/-!
## Dispatchers (`send_files`, `receive_files`)
-/

/-- Presence of the executables the dispatchers may spawn: `systemd-run`
(primary wrapper for both the notification and the transfer command),
`notify-send` (notification fallback), and whether a direct
`Popen([TAILSCALE_BIN, ...])` fallback spawn succeeds. -/
structure SpawnEnv where
  systemdRun : Bool
  notifySend : Bool
  tailscaleSpawnable : Bool
deriving Repr, DecidableEq

/-- A launched transfer command: either wrapped by
`["systemd-run", "--user", "--no-block"]` or spawned directly via `Popen`;
`cmd` is the unwrapped command line. -/
inductive Spawn where
  | viaSystemdRun (cmd : List String)
  | direct (cmd : List String)
deriving Repr, DecidableEq

/-- `os.path.basename`: the suffix after the last `'/'`. -/
def pyBasename (p : String) : String :=
  String.mk ((p.data.reverse.takeWhile fun c => c ≠ '/').reverse)

/-- The fire-and-forget launch shared by both dispatchers (lines 158-165 and
184-192): try `subprocess.run(["systemd-run", "--user", "--no-block"] + cmd)`;
on its `FileNotFoundError`, fall back to `subprocess.Popen(cmd)`, whose own
`FileNotFoundError` (absent `TAILSCALE_BIN`) is uncaught. -/
def spawnDetached (env : SpawnEnv) (cmd : List String) : Except PyExc Spawn :=
  if env.systemdRun then .ok (.viaSystemdRun cmd)
  else if env.tailscaleSpawnable then .ok (.direct cmd)
  else .error (.fileNotFound TAILSCALE_BIN)

/-- The notification message of `send_files` (lines 174-178). -/
def sendMessage (paths : List String) (host : String) : String :=
  if paths.length = 1 then
    "Sending \x27" ++ pyBasename (paths.headD "") ++ "\x27 to " ++ host ++ "…"
  else
    "Sending " ++ toString paths.length ++ " files to " ++ host ++ "…"

/-- The transfer command of line 183:
`[TAILSCALE_BIN, "file", "cp"] + paths + [f"{host}:"]`. -/
def sendCmd (paths : List String) (host : String) : List String :=
  [TAILSCALE_BIN, "file", "cp"] ++ paths ++ [host ++ ":"]

/-- `send_files` (lines 169-192): no-op on an empty path list, otherwise
notify then fire-and-forget the transfer command.  The result collects the
delivered notifications and issued spawns; `.error` is a propagated
exception. -/
def send_files (env : SpawnEnv) (paths : List String) (host : String) :
    Except PyExc (List Notif × List Spawn) :=
  if paths.isEmpty then .ok ([], [])
  else
    match notifyRun ⟨env.systemdRun, env.notifySend⟩
        ⟨"Tailscale", sendMessage paths host, "network-transmit"⟩ with
    | .error ex => .error ex
    | .ok nf =>
      match spawnDetached env (sendCmd paths host) with
      | .error ex => .error ex
      | .ok sp => .ok ([nf], [sp])

/-- `receive_files` (lines 152-165): notify then fire-and-forget
`[TAILSCALE_BIN, "file", "get", dest_dir]`. -/
def receive_files (env : SpawnEnv) (dest_dir : String) :
    Except PyExc (List Notif × List Spawn) :=
  match notifyRun ⟨env.systemdRun, env.notifySend⟩
      ⟨"Tailscale", "Receiving files in " ++ dest_dir ++ "…", "network-receive"⟩ with
  | .error ex => .error ex
  | .ok nf =>
    match spawnDetached env [TAILSCALE_BIN, "file", "get", dest_dir] with
    | .error ex => .error ex
    | .ok sp => .ok ([nf], [sp])

/-- Whether an operation returned normally (no propagated exception). -/
def returnsNormally {α : Type} : Except PyExc α → Bool
  | .ok _ => true
  | .error _ => false

/-!
## Concrete fixtures (used by witnesses and counterexamples)
-/

/-- A populated-cache entry. -/
def item0 : Item := ⟨"alpha", "🟢 alpha (linux)", true⟩

/-- An example peer named via its DNS name, owned by user `1`. -/
def exPeer (name : String) (onl : Bool) : PeerData :=
  ⟨some name, some (name ++ ".tailnet.ts.net."), some "linux", some onl, some 1⟩

/-- The ordering example of the spec: peers (online "beta", online "alpha",
offline "zzz"), self owner `1`. -/
def exStatus : Status :=
  ⟨some 1, [("k1", exPeer "beta" true), ("k2", exPeer "alpha" true), ("k3", exPeer "zzz" false)]⟩

/-- A parsed payload with no peers. -/
def emptyStatus : Status := ⟨none, []⟩

/-- Populated cache captured at monotonic time 0 (stale). -/
def s1 : CacheState := ⟨[item0], 0, false⟩

/-- Populated cache captured at monotonic time 10 (fresh at time 11-24). -/
def sFresh : CacheState := ⟨[item0], 10, false⟩

/-- Populated cache captured at monotonic time 3. -/
def sMid : CacheState := ⟨[item0], 3, false⟩

/-- Successful refresh at time 100 whose parse yields no devices. -/
def eSuccessEmpty : GetEnv := ⟨100, true, .completed 0 (.ok emptyStatus) ""⟩

/-- Failed refresh (exit code 1) at time 20. -/
def eFail20 : GetEnv := ⟨20, true, .completed 1 (.error "Expecting value") "some error"⟩

/-- Failed refresh (exit code 1) at time 21. -/
def eFail21 : GetEnv := ⟨21, true, .completed 1 (.error "Expecting value") "some error"⟩

/-- Binary absent at time 11. -/
def eAbsent11 : GetEnv := ⟨11, false, .timeoutExpired⟩

/-- Binary present but the query times out, at time 5. -/
def eEarly : GetEnv := ⟨5, true, .timeoutExpired⟩

/-- Neither `systemd-run`, `notify-send`, nor `tailscale` can be spawned. -/
def envNone : SpawnEnv := ⟨false, false, false⟩

/-- Neither `systemd-run` nor `notify-send` can be spawned. -/
def nvNone : NotifyEnv := ⟨false, false⟩

/-- A peer record carrying no `UserID` key. -/
def peerNoUID : PeerData := ⟨some "host1", some "", some "linux", some true, none⟩

/-- Payload whose self record has owner `1` and whose only peer lacks
`UserID`. -/
def stC5 : Status := ⟨some 1, [("p", peerNoUID)]⟩

/-- A peer record lacking the `Online` key. -/
def peerNoOnline : PeerData := ⟨some "pc", none, none, none, some 1⟩

/-!
## Branch characterizations of `get_devices`
-/

lemma notifyRun_ok {nv : NotifyEnv} (h : notifyOk nv = true) (m : Notif) :
    notifyRun nv m = .ok m := by
  unfold notifyOk at h
  unfold notifyRun
  cases hs : nv.systemdRun
  · cases hn : nv.notifySend
    · rw [hs, hn] at h; simp at h
    · simp [hn]
  · simp

/-- Cache hit (line 75-76): state untouched, no notification, no query. -/
lemma getDevices_hit {s : CacheState} {e : GetEnv} (h : cacheHitB s e = true) :
    getDevices s e = ⟨s, s.devices_cache, [], 0⟩ := by
  simp [getDevices, h]

/-- Missing binary, not yet warned (lines 78-80): warn once, set the flag. -/
lemma getDevices_absent_unwarned {s : CacheState} {e : GetEnv}
    (h1 : cacheHitB s e = false) (h2 : e.available = false)
    (h3 : s.tailscale_missing_warned = false) :
    getDevices s e =
      ⟨⟨s.devices_cache, s.last_cache_time, true⟩, s.devices_cache, [missingNotif], 0⟩ := by
  simp [getDevices, h1, h2, h3]

/-- Missing binary, already warned: silent, state untouched. -/
lemma getDevices_absent_warned {s : CacheState} {e : GetEnv}
    (h1 : cacheHitB s e = false) (h2 : e.available = false)
    (h3 : s.tailscale_missing_warned = true) :
    getDevices s e = ⟨s, s.devices_cache, [], 0⟩ := by
  simp [getDevices, h1, h2, h3]

/-- Any failed refresh attempt (timeout, launch error, non-zero exit, JSON
parse failure) leaves the state untouched and returns the cached list, after
one issued query (lines 90-111). -/
lemma getDevices_failed {s : CacheState} {e : GetEnv}
    (h1 : cacheHitB s e = false) (h2 : e.available = true)
    (h3 : e.run.isSuccess = false) :
    (getDevices s e).state = s ∧ (getDevices s e).ret = s.devices_cache ∧
      (getDevices s e).queries = 1 := by
  unfold getDevices
  rw [h1, h2]
  cases hrun : e.run with
  | timeoutExpired => simp
  | osError m => simp
  | completed rc out stderr =>
    rw [hrun] at h3
    by_cases hrc : rc = 0
    · cases out with
      | error exc => simp [hrc]
      | ok payload => simp [RunResult.isSuccess, hrc] at h3
    · simp [hrc]

/-- A successful refresh (exit 0, parsed payload) replaces the cache with the
built list, stamps the current time, and clears the warning flag
(lines 113-148). -/
lemma getDevices_success {s : CacheState} {e : GetEnv} {payload : Status}
    {stderr : String}
    (h1 : cacheHitB s e = false) (h2 : e.available = true)
    (hr : e.run = .completed 0 (.ok payload) stderr) :
    getDevices s e =
      ⟨⟨buildDevices payload, e.now, false⟩, buildDevices payload, [], 1⟩ := by
  unfold getDevices
  rw [h1, h2, hr]
  simp

/-- When `_notify` can deliver (either spawn mechanism present), the
exception-aware `get_devices` agrees with the total transition function. -/
lemma getDevicesE_eq (s : CacheState) (e : GetEnv) {nv : NotifyEnv}
    (h : notifyOk nv = true) : getDevicesE s e nv = .ok (getDevices s e) := by
  have hn : ∀ m, notifyRun nv m = .ok m := notifyRun_ok h
  unfold getDevicesE getDevices
  cases h1 : cacheHitB s e with
  | true => simp
  | false =>
    cases ha : e.available with
    | false =>
      cases hw : s.tailscale_missing_warned with
      | false => simp [hn]
      | true => simp
    | true =>
      cases hrun : e.run with
      | timeoutExpired => simp [hn]
      | osError m => simp [hn]
      | completed rc out stderr =>
        by_cases hrc : rc = 0
        · cases out with
          | error exc => simp [hrc, hn]
          | ok payload => simp [hrc]
        · simp [hrc, hn]

/-- Online devices precede offline ones in every built list. -/
lemma buildDevices_online_first (st : Status) :
    (buildDevices st).Pairwise fun a b => a.is_online = false → b.is_online = false := by
  refine (buildDevices_pairwise st).imp ?_
  intro a b h ha
  cases hb : b.is_online
  · rfl
  · unfold ItemR itemLE at h
    rw [ha, hb] at h
    simp at h

lemma ite_unknown_ne_empty (s : String) : (if s = "" then "Unknown" else s) ≠ "" := by
  by_cases h : s = ""
  · rw [if_pos h]; decide
  · rw [if_neg h]; exact h

/-- The cleaned display name is never the empty string (line 128-129). -/
lemma cleanName_ne_empty (d : PeerData) : cleanName d ≠ "" := by
  unfold cleanName
  dsimp only
  exact ite_unknown_ne_empty _

/-!
## Claim theorems: device-list derivation
-/

/-- The owner filter exactly as the claim words it: a peer is excluded
for owner mismatch only when an owner-identifier is present on BOTH the
self record and the peer record and the two differ.  (Written from the
spec sentence, for comparison against `includePeer`.) -/
def claimPassesFilters (selfUID : Option Int) (d : PeerData) : Prop :=
  d.HostName ≠ some "funnel-ingress-node" ∧
    ¬ ∃ a b : Int, selfUID = some a ∧ d.UserID = some b ∧ a ≠ b

/-- Payload used by the C5 witness. -/
def stW5 : Status := ⟨some 1, [("a", peerNoOnline)]⟩

/-- C5 (amended): the built device list contains exactly the items of the
peers that pass both filters, where the ingress-sentinel hostname is always
excluded and — whenever the self owner-identifier is present and non-zero —
a peer is excluded unless its own owner-identifier is present and equal to
it (an absent peer identifier also excludes the peer); a `none` (or zero)
self identifier disables the owner filter. -/
theorem filter_membership_characterization :
    (∀ (st : Status) (d : Item),
        d ∈ buildDevices st ↔
          ∃ p ∈ st.peers, includePeer st.selfUserID p.2 = true ∧ d = mkItem p.2) ∧
    (∀ (uid : Option Int) (d : PeerData),
        includePeer uid d = true ↔
          (d.HostName ≠ some "funnel-ingress-node" ∧
            ∀ n : Int, uid = some n → n ≠ 0 → d.UserID = some n)) := by
  constructor
  · intro st d
    rw [(buildDevices_perm st).mem_iff]
    unfold rawItems
    simp only [List.mem_map, List.mem_filter]
    constructor
    · rintro ⟨p, ⟨hp, hinc⟩, hd⟩
      exact ⟨p, hp, hinc, hd.symm⟩
    · rintro ⟨p, hp, hinc, hd⟩
      exact ⟨p, ⟨hp, hinc⟩, hd.symm⟩
  · intro uid d
    unfold includePeer pyTruthyInt
    cases uid with
    | none => simp
    | some n =>
      by_cases hn : n = 0
      · subst hn; simp
      · cases hU : d.UserID with
        | none => simp [hn, hU]
        | some m =>
          by_cases hm : m = n
          · subst hm; simp [hn]
          · simp [hn, hU, hm]

/-- C5 witness: a concrete surviving peer is in the built list. -/
theorem filter_membership_characterization_witness :
    mkItem peerNoOnline ∈ buildDevices stW5 :=
  (filter_membership_characterization.1 stW5 (mkItem peerNoOnline)).mpr (by decide)

/-- C5 counterexample: `stC5`'s only peer passes both filters as the claim
words them (its hostname is not the sentinel, and no owner-identifier is
present on both sides since the peer lacks one), yet the code excludes it:
the built list is empty. -/
theorem peer_without_userid_excluded :
    claimPassesFilters stC5.selfUserID peerNoUID ∧
    ("p", peerNoUID) ∈ stC5.peers ∧
    mkItem peerNoUID ∉ buildDevices stC5 := by
  refine ⟨⟨by decide, ?_⟩, by decide, by decide⟩
  rintro ⟨a, b, _, hb, _⟩
  simp [peerNoUID] at hb

/-- C6: every built device list is sorted by the key
`(not is_online, hostname.lower())` — every online device precedes every
offline one, within equal online-status the lowercased names ascend — and
the spec's example (online "beta", online "alpha", offline "zzz") comes out
as ["alpha", "beta", "zzz"]. -/
theorem device_list_ordering :
    (∀ st : Status, (buildDevices st).Pairwise fun a b => itemLE a b = true) ∧
    (∀ st : Status, (buildDevices st).Pairwise fun a b =>
        a.is_online = false → b.is_online = false) ∧
    (∀ st : Status, (buildDevices st).Pairwise fun a b =>
        a.is_online = b.is_online →
          natListLE (pyLowerCodes a.hostname) (pyLowerCodes b.hostname) = true) ∧
    (buildDevices exStatus).map (fun d => d.hostname) = ["alpha", "beta", "zzz"] := by
  refine ⟨fun st => buildDevices_pairwise st, buildDevices_online_first, ?_, by decide⟩
  intro st
  refine (buildDevices_pairwise st).imp ?_
  intro a b h hab
  unfold ItemR itemLE at h
  rw [hab] at h
  simpa using h

/-- C6 witness: the ordering properties at the spec's example payload. -/
theorem device_list_ordering_witness :
    ((buildDevices exStatus).Pairwise fun a b => itemLE a b = true) ∧
    (buildDevices exStatus).map (fun d => d.hostname) = ["alpha", "beta", "zzz"] :=
  ⟨device_list_ordering.1 exStatus, device_list_ordering.2.2.2⟩

/-- The display-name rule exactly as the claim words it: first
label-segment of the DNS name when a (non-empty) DNS name is present,
otherwise the hostname, otherwise the fixed placeholder `"Unknown"`; an
empty result is replaced by `"Unknown"`. -/
def specDisplayName (d : PeerData) : String :=
  let base :=
    match d.DNSName with
    | some dns => if dns = "" then d.HostName.getD "Unknown" else firstLabel dns
    | none => d.HostName.getD "Unknown"
  if base = "" then "Unknown" else base

/-- C8: for every peer that survives filtering, the built display name
follows the DNS-first-label / hostname / "Unknown" rule and is never the
empty string. -/
theorem display_name_rule :
    ∀ (st : Status) (p : String × PeerData), p ∈ st.peers →
      includePeer st.selfUserID p.2 = true →
      (mkItem p.2).hostname = specDisplayName p.2 ∧ (mkItem p.2).hostname ≠ "" := by
  intro st p _ _
  have hname : (mkItem p.2).hostname = cleanName p.2 := rfl
  constructor
  · rw [hname]
    unfold cleanName specDisplayName
    cases h : p.2.DNSName with
    | none => simp [h]
    | some dns => by_cases hd : dns = "" <;> simp [h, hd]
  · rw [hname]
    exact cleanName_ne_empty p.2

/-- C8 witness: the rule at a concrete surviving peer of `exStatus`. -/
theorem display_name_rule_witness :
    (mkItem (exPeer "beta" true)).hostname = specDisplayName (exPeer "beta" true) ∧
    (mkItem (exPeer "beta" true)).hostname ≠ "" :=
  display_name_rule exStatus ("k1", exPeer "beta" true) (by decide) (by decide)

/-- C9: `send_files` with an empty path list is a silent no-op — no
notification, no spawn, no exception, for every environment and target. -/
theorem send_empty_paths_noop :
    ∀ (env : SpawnEnv) (host : String), send_files env [] host = .ok ([], []) := by
  intro env host
  rfl

/-- C10: a peer record lacking the `Online` key yields a device with
`is_online = false`, and in every built list such offline devices are
sorted after all online ones. -/
theorem missing_online_field_offline :
    (∀ d : PeerData, d.Online = none → (mkItem d).is_online = false) ∧
    (∀ st : Status, (buildDevices st).Pairwise fun a b =>
        a.is_online = false → b.is_online = false) := by
  constructor
  · intro d h
    unfold mkItem
    simp [h]
  · exact buildDevices_online_first

/-- C10 witness: a concrete peer without `Online`, and the grouping at the
example payload. -/
theorem missing_online_field_offline_witness :
    (mkItem peerNoOnline).is_online = false ∧
    ((buildDevices exStatus).Pairwise fun a b =>
        a.is_online = false → b.is_online = false) :=
  ⟨missing_online_field_offline.1 peerNoOnline rfl,
    missing_online_field_offline.2 exStatus⟩

/-!
## Claim theorems: cache behaviour
-/

lemma isSuccess_elim {r : RunResult} (h : r.isSuccess = true) :
    ∃ payload stderr, r = .completed 0 (.ok payload) stderr := by
  cases r with
  | timeoutExpired => simp [RunResult.isSuccess] at h
  | osError m => simp [RunResult.isSuccess] at h
  | completed rc out stderr =>
    cases out with
    | error e => simp [RunResult.isSuccess] at h
    | ok p =>
      have hrc : rc = 0 := by simpa [RunResult.isSuccess] using h
      exact ⟨p, stderr, by rw [hrc]⟩

/-- C1 (amended): a failed refresh attempt (timeout, launch error, non-zero
exit, or JSON parse failure) returns the previously cached list with the
class fields unchanged; the cached list is only ever replaced by a
successful refresh, and then it becomes the built list of the parsed
payload — which may be empty. -/
theorem stale_on_failure_replace_only_on_success :
    (∀ (s : CacheState) (e : GetEnv),
        cacheHitB s e = false → e.available = true → e.run.isSuccess = false →
        (getDevices s e).state = s ∧ (getDevices s e).ret = s.devices_cache) ∧
    (∀ (s : CacheState) (e : GetEnv),
        (getDevices s e).state.devices_cache ≠ s.devices_cache →
        cacheHitB s e = false ∧ e.available = true ∧ e.run.isSuccess = true) ∧
    (∀ (s : CacheState) (e : GetEnv) (payload : Status) (stderr : String),
        cacheHitB s e = false → e.available = true →
        e.run = .completed 0 (.ok payload) stderr →
        (getDevices s e).state.devices_cache = buildDevices payload) := by
  refine ⟨?_, ?_, ?_⟩
  · intro s e h1 h2 h3
    exact ⟨(getDevices_failed h1 h2 h3).1, (getDevices_failed h1 h2 h3).2.1⟩
  · intro s e hne
    by_cases h1 : cacheHitB s e = true
    · rw [getDevices_hit h1] at hne
      exact absurd rfl hne
    · have h1' : cacheHitB s e = false := by simpa using h1
      by_cases h2 : e.available = true
      · by_cases h3 : e.run.isSuccess = true
        · exact ⟨h1', h2, h3⟩
        · have h3' : e.run.isSuccess = false := by simpa using h3
          rw [(getDevices_failed h1' h2 h3').1] at hne
          exact absurd rfl hne
      · have h2' : e.available = false := by simpa using h2
        by_cases hw : s.tailscale_missing_warned = false
        · rw [getDevices_absent_unwarned h1' h2' hw] at hne
          exact absurd rfl hne
        · have hw' : s.tailscale_missing_warned = true := by simpa using hw
          rw [getDevices_absent_warned h1' h2' hw'] at hne
          exact absurd rfl hne
  · intro s e payload stderr h1 h2 hr
    rw [getDevices_success h1 h2 hr]

/-- C1 witness: a concrete failed refresh keeps the state, and a concrete
successful refresh installs the built list. -/
theorem stale_on_failure_witness :
    ((getDevices s1 eFail20).state = s1 ∧
      (getDevices s1 eFail20).ret = s1.devices_cache) ∧
    (getDevices s1 eSuccessEmpty).state.devices_cache = buildDevices emptyStatus :=
  ⟨stale_on_failure_replace_only_on_success.1 s1 eFail20
      (by simp [cacheHitB, s1, eFail20, CACHE_TTL]; norm_num) rfl rfl,
    stale_on_failure_replace_only_on_success.2.2 s1 eSuccessEmpty emptyStatus ""
      (by simp [cacheHitB, s1, eSuccessEmpty, CACHE_TTL]; norm_num) rfl rfl⟩

/-- C1 counterexample: a successful refresh whose parse yields NO devices
still replaces a non-empty cache — the cached list is not only replaced by
refreshes yielding a non-empty device list, as the claim states. -/
theorem successful_empty_parse_replaces_nonempty_cache :
    s1.devices_cache ≠ [] ∧
    eSuccessEmpty.run = .completed 0 (.ok emptyStatus) "" ∧
    buildDevices emptyStatus = [] ∧
    (getDevices s1 eSuccessEmpty).state.devices_cache = [] := by
  refine ⟨by decide, rfl, rfl, ?_⟩
  have h1 : cacheHitB s1 eSuccessEmpty = false := by
    simp [cacheHitB, s1, eSuccessEmpty, CACHE_TTL]
    norm_num
  rw [getDevices_success h1 rfl rfl]
  rfl

/-- C2 (amended): when a `get()` call performs a successful refresh whose
parse yields a non-empty list, a second call less than TTL seconds later is
a pure cache hit: it returns the cached snapshot unchanged, with no
notification and zero external calls — so the two calls issue exactly one
external status query. -/
theorem ttl_cache_hit_after_successful_refresh :
    ∀ (s : CacheState) (e1 e2 : GetEnv) (payload : Status) (stderr : String),
      cacheHitB s e1 = false → e1.available = true →
      e1.run = .completed 0 (.ok payload) stderr →
      buildDevices payload ≠ [] →
      e2.now - e1.now < CACHE_TTL →
      (getDevices s e1).queries = 1 ∧
      getDevices (getDevices s e1).state e2 =
        ⟨(getDevices s e1).state, (getDevices s e1).state.devices_cache, [], 0⟩ := by
  intro s e1 e2 payload stderr h1 h2 hr hne httl
  rw [getDevices_success h1 h2 hr]
  refine ⟨rfl, ?_⟩
  apply getDevices_hit
  unfold cacheHitB
  simp [hne, httl]

/-- Successful refresh of the example payload at time 20. -/
def eSuccess20 : GetEnv := ⟨20, true, .completed 0 (.ok exStatus) ""⟩

/-- C2 witness: the two-call scenario at concrete inputs. -/
theorem ttl_cache_hit_witness :
    (getDevices initialState eSuccess20).queries = 1 ∧
    getDevices (getDevices initialState eSuccess20).state eFail21 =
      ⟨(getDevices initialState eSuccess20).state,
        (getDevices initialState eSuccess20).state.devices_cache, [], 0⟩ :=
  ttl_cache_hit_after_successful_refresh initialState eSuccess20 eFail21 exStatus ""
    (by simp [cacheHitB, initialState]) rfl rfl (by decide)
    (by norm_num [eSuccess20, eFail21, CACHE_TTL])

/-- C2 counterexample: two consecutive `get()` calls one second apart — well
within the 15-second TTL — each issue an external status query, because the
first refresh failed and left the cache empty; the second call does not take
the cache-hit path. -/
theorem two_queries_within_ttl_after_failed_first_call :
    eFail21.now - eFail20.now < CACHE_TTL ∧
    (getDevices initialState eFail20).queries = 1 ∧
    (getDevices (getDevices initialState eFail20).state eFail21).queries = 1 := by
  have h1 : cacheHitB initialState eFail20 = false := by simp [cacheHitB, initialState]
  have hf := getDevices_failed h1 rfl rfl
  refine ⟨by norm_num [eFail20, eFail21, CACHE_TTL], hf.2.2, ?_⟩
  rw [hf.1]
  have h2 : cacheHitB initialState eFail21 = false := by simp [cacheHitB, initialState]
  exact (getDevices_failed h2 rfl rfl).2.2

/-- Once the warning flag is set, a run of calls with the binary absent is
completely silent and leaves the state untouched (whether or not a call is
a cache hit). -/
lemma runGets_absent_warned :
    ∀ (es : List GetEnv) (s : CacheState), s.tailscale_missing_warned = true →
      (∀ e ∈ es, e.available = false) →
      runGets s es = (s, []) := by
  intro es
  induction es with
  | nil => intro s _ _; rfl
  | cons e es ih =>
    intro s hw hall
    have he : e.available = false := hall e (List.mem_cons_self e es)
    have hcall : getDevices s e = ⟨s, s.devices_cache, [], 0⟩ := by
      by_cases h1 : cacheHitB s e = true
      · exact getDevices_hit h1
      · have h1' : cacheHitB s e = false := by simpa using h1
        exact getDevices_absent_warned h1' he hw
    have htail := ih s hw fun e' he' => hall e' (List.mem_cons_of_mem _ he')
    show ((runGets (getDevices s e).state es).1,
        (getDevices s e).notifs ++ (runGets (getDevices s e).state es).2) = (s, [])
    rw [hcall]
    simp [htail]

/-- C4 (amended): starting unwarned, a non-empty run of consecutive `get()`
calls with the binary absent, each of which reaches the availability check
(is not a TTL cache hit), produces exactly one missing-binary notification;
the warned state goes back to silent only through a successful refresh —
never through a failed refresh and never by mere elapsed time — and a
successful refresh does clear it, so a later disappearance warns again. -/
theorem warn_once_reset_only_on_success :
    (∀ (s : CacheState) (es : List GetEnv),
        s.tailscale_missing_warned = false → es ≠ [] →
        (∀ e ∈ es, e.available = false ∧ cacheHitB s e = false) →
        countMissing (runGets s es).2 = 1) ∧
    (∀ (s : CacheState) (e : GetEnv),
        s.tailscale_missing_warned = true →
        (getDevices s e).state.tailscale_missing_warned = false →
        cacheHitB s e = false ∧ e.available = true ∧ e.run.isSuccess = true) ∧
    (∀ (s : CacheState) (e : GetEnv) (payload : Status) (stderr : String),
        cacheHitB s e = false → e.available = true →
        e.run = .completed 0 (.ok payload) stderr →
        (getDevices s e).state.tailscale_missing_warned = false) := by
  refine ⟨?_, ?_, ?_⟩
  · intro s es hw hne hall
    cases es with
    | nil => exact absurd rfl hne
    | cons e es =>
      have he := hall e (List.mem_cons_self e es)
      have hcall := getDevices_absent_unwarned he.2 he.1 hw
      have htail := runGets_absent_warned es ⟨s.devices_cache, s.last_cache_time, true⟩ rfl
        fun e' he' => (hall e' (List.mem_cons_of_mem _ he')).1
      show countMissing (((runGets (getDevices s e).state es).1,
          (getDevices s e).notifs ++ (runGets (getDevices s e).state es).2).2) = 1
      rw [hcall]
      simp only [htail]
      rfl
  · intro s e hw hne
    by_cases h1 : cacheHitB s e = true
    · rw [getDevices_hit h1] at hne
      rw [hw] at hne
      exact absurd hne (by simp)
    · have h1' : cacheHitB s e = false := by simpa using h1
      by_cases h2 : e.available = true
      · by_cases h3 : e.run.isSuccess = true
        · exact ⟨h1', h2, h3⟩
        · have h3' : e.run.isSuccess = false := by simpa using h3
          rw [(getDevices_failed h1' h2 h3').1, hw] at hne
          exact absurd hne (by simp)
      · have h2' : e.available = false := by simpa using h2
        rw [getDevices_absent_warned h1' h2' hw, hw] at hne
        exact absurd hne (by simp)
  · intro s e payload stderr h1 h2 hr
    rw [getDevices_success h1 h2 hr]

/-- Two consecutive calls with the binary absent, starting from the
process-start state. -/
def esAbsent : List GetEnv := [⟨20, false, .timeoutExpired⟩, ⟨21, false, .timeoutExpired⟩]

/-- C4 witness: two absent calls warn exactly once, and a successful refresh
clears the flag from the warned state. -/
theorem warn_once_witness :
    countMissing (runGets initialState esAbsent).2 = 1 ∧
    (getDevices ⟨[], 0, true⟩ eSuccess20).state.tailscale_missing_warned = false :=
  ⟨warn_once_reset_only_on_success.1 initialState esAbsent rfl (by decide)
      (by
        intro e he
        have h : e = ⟨20, false, .timeoutExpired⟩ ∨ e = ⟨21, false, .timeoutExpired⟩ := by
          simpa [esAbsent] using he
        rcases h with h | h <;> subst h <;>
          exact ⟨rfl, by simp [cacheHitB, initialState]⟩),
    warn_once_reset_only_on_success.2.2 ⟨[], 0, true⟩ eSuccess20 exStatus ""
      (by simp [cacheHitB]) rfl rfl⟩

/-- C4 counterexample: one consecutive `get()` call while the binary is
absent — a fresh-cache hit — produces ZERO missing-binary notifications,
not exactly one, although the suppression flag was clear. -/
theorem absent_binary_cache_hit_no_warning :
    eAbsent11.available = false ∧
    sFresh.tailscale_missing_warned = false ∧
    countMissing (runGets sFresh [eAbsent11]).2 = 0 := by
  have hhit : cacheHitB sFresh eAbsent11 = true := by
    simp [cacheHitB, sFresh, eAbsent11, CACHE_TTL, item0]
    norm_num
  refine ⟨rfl, rfl, ?_⟩
  show countMissing (((runGets (getDevices sFresh eAbsent11).state []).1,
      (getDevices sFresh eAbsent11).notifs ++
        (runGets (getDevices sFresh eAbsent11).state []).2).2) = 0
  rw [getDevices_hit hhit]
  rfl

/-- Binary present but the query times out, at time 20. -/
def eTimeout20 : GetEnv := ⟨20, true, .timeoutExpired⟩

/-- C7 (amended): `invalidate_cache` resets the snapshot timestamp to the
sentinel `0.0` and leaves the cached list itself unchanged; whenever the
current monotonic time is at least the TTL (15 s), the next `get()` call
bypasses the cache-hit check and — with the binary available — attempts a
refresh (one external query), so that a refresh failure after invalidation
still returns the previous list. -/
theorem invalidate_forces_refresh_after_ttl :
    ∀ s : CacheState,
      (invalidate_cache s).devices_cache = s.devices_cache ∧
      (invalidate_cache s).last_cache_time = 0 ∧
      (∀ e : GetEnv, CACHE_TTL ≤ e.now → cacheHitB (invalidate_cache s) e = false) ∧
      (∀ e : GetEnv, CACHE_TTL ≤ e.now → e.available = true →
        (getDevices (invalidate_cache s) e).queries = 1) ∧
      (∀ e : GetEnv, CACHE_TTL ≤ e.now → e.available = true → e.run.isSuccess = false →
        (getDevices (invalidate_cache s) e).ret = s.devices_cache) := by
  intro s
  have hbypass : ∀ e : GetEnv, CACHE_TTL ≤ e.now →
      cacheHitB (invalidate_cache s) e = false := by
    intro e h
    have hlt : ¬(e.now - (0 : ℚ) < CACHE_TTL) := by
      rw [sub_zero]
      exact not_lt.mpr h
    show (decide (e.now - (0 : ℚ) < CACHE_TTL) && !s.devices_cache.isEmpty) = false
    rw [decide_eq_false hlt]
    rfl
  refine ⟨rfl, rfl, hbypass, ?_, ?_⟩
  · intro e h ha
    by_cases hs : e.run.isSuccess = true
    · rcases isSuccess_elim hs with ⟨payload, stderr, hr⟩
      rw [getDevices_success (hbypass e h) ha hr]
    · have hs' : e.run.isSuccess = false := by simpa using hs
      exact (getDevices_failed (hbypass e h) ha hs').2.2
  · intro e h ha hf
    exact (getDevices_failed (hbypass e h) ha hf).2.1

/-- C7 witness: invalidation at a populated cache, followed by a failed
refresh at monotonic time 20. -/
theorem invalidate_witness :
    (invalidate_cache sMid).devices_cache = sMid.devices_cache ∧
    (getDevices (invalidate_cache sMid) eTimeout20).queries = 1 ∧
    (getDevices (invalidate_cache sMid) eTimeout20).ret = sMid.devices_cache :=
  ⟨(invalidate_forces_refresh_after_ttl sMid).1,
    (invalidate_forces_refresh_after_ttl sMid).2.2.2.1 eTimeout20
      (by norm_num [eTimeout20, CACHE_TTL]) rfl,
    (invalidate_forces_refresh_after_ttl sMid).2.2.2.2 eTimeout20
      (by norm_num [eTimeout20, CACHE_TTL]) rfl rfl⟩

/-- C7 counterexample: with the monotonic clock at 5 s (less than the TTL
past the clock epoch), a `get()` right after `invalidate_cache` still takes
the cache-hit path — zero external queries, no refresh attempt — because
`5 - 0.0 < 15`; the sentinel does not force a bypass of the TTL check. -/
theorem invalidate_no_bypass_before_ttl_epoch :
    cacheHitB (invalidate_cache sMid) eEarly = true ∧
    (getDevices (invalidate_cache sMid) eEarly).queries = 0 ∧
    (getDevices (invalidate_cache sMid) eEarly).notifs = [] ∧
    (getDevices (invalidate_cache sMid) eEarly).ret = sMid.devices_cache := by
  have hhit : cacheHitB (invalidate_cache sMid) eEarly = true := by
    simp [cacheHitB, invalidate_cache, sMid, eEarly, CACHE_TTL, item0]
    norm_num
  refine ⟨hhit, ?_, ?_, ?_⟩ <;> rw [getDevices_hit hhit]
  rfl

/-!
## Claim theorem: boundary totality (C3)
-/

/-- `systemd-run` present (notification and spawn both go through it). -/
def nvSys : NotifyEnv := ⟨true, false⟩

/-- `systemd-run` present for the dispatchers. -/
def envSys : SpawnEnv := ⟨true, false, false⟩

/-- Exit 0 but stdout is not valid JSON, at time 20. -/
def eBadJSON : GetEnv := ⟨20, true, .completed 0 (.error "Expecting value") ""⟩

/-- C3 (amended): provided the notification can be delivered (`systemd-run`
or `notify-send` spawnable) and — for the dispatchers — the transfer spawn
has a workable path (`systemd-run`, or the direct `tailscale` fallback),
`get()`, `send()` and `receive()` return normally for every
external-command outcome; a status response that fails JSON parsing is
handled as one notification plus a stale-cache return with the state
untouched, never a crash. -/
theorem boundary_totality_under_spawnable_fallbacks :
    (∀ (s : CacheState) (e : GetEnv) (nv : NotifyEnv), notifyOk nv = true →
        returnsNormally (getDevicesE s e nv) = true) ∧
    (∀ (env : SpawnEnv) (paths : List String) (host : String),
        env.systemdRun = true ∨ (env.notifySend = true ∧ env.tailscaleSpawnable = true) →
        returnsNormally (send_files env paths host) = true) ∧
    (∀ (env : SpawnEnv) (dest : String),
        env.systemdRun = true ∨ (env.notifySend = true ∧ env.tailscaleSpawnable = true) →
        returnsNormally (receive_files env dest) = true) ∧
    (∀ (s : CacheState) (e : GetEnv) (nv : NotifyEnv) (exc stderr : String),
        notifyOk nv = true → cacheHitB s e = false → e.available = true →
        e.run = .completed 0 (.error exc) stderr →
        getDevicesE s e nv = .ok ⟨s, s.devices_cache, [invalidJSONNotif exc], 1⟩) := by
  refine ⟨?_, ?_, ?_, ?_⟩
  · intro s e nv h
    rw [getDevicesE_eq s e h]
    rfl
  · intro env paths host hyp
    rcases hyp with hs | ⟨hn, ht⟩
    · unfold send_files
      by_cases he : paths.isEmpty <;>
        simp [he, notifyRun, spawnDetached, hs, returnsNormally]
    · unfold send_files
      by_cases he : paths.isEmpty
      · simp [he, returnsNormally]
      · by_cases hs2 : env.systemdRun <;>
          simp [he, notifyRun, spawnDetached, hs2, hn, ht, returnsNormally]
  · intro env dest hyp
    rcases hyp with hs | ⟨hn, ht⟩
    · simp [receive_files, notifyRun, spawnDetached, hs, returnsNormally]
    · by_cases hs2 : env.systemdRun <;>
        simp [receive_files, notifyRun, spawnDetached, hs2, hn, ht, returnsNormally]
  · intro s e nv exc stderr hnv h1 h2 hr
    unfold getDevicesE
    rw [h1, h2, hr]
    simp [notifyRun_ok hnv]

/-- C3 witness: normal returns at concrete inputs, and the handled
malformed-JSON outcome. -/
theorem boundary_totality_witness :
    returnsNormally (getDevicesE initialState eFail20 nvSys) = true ∧
    returnsNormally (send_files envSys ["/tmp/a.txt"] "mypc") = true ∧
    returnsNormally (receive_files envSys "/home/user") = true ∧
    getDevicesE s1 eBadJSON nvSys =
      .ok ⟨s1, s1.devices_cache, [invalidJSONNotif "Expecting value"], 1⟩ :=
  ⟨boundary_totality_under_spawnable_fallbacks.1 initialState eFail20 nvSys rfl,
    boundary_totality_under_spawnable_fallbacks.2.1 envSys ["/tmp/a.txt"] "mypc" (Or.inl rfl),
    boundary_totality_under_spawnable_fallbacks.2.2.1 envSys "/home/user" (Or.inl rfl),
    boundary_totality_under_spawnable_fallbacks.2.2.2 s1 eBadJSON nvSys "Expecting value" ""
      rfl (by simp [cacheHitB, s1, eBadJSON, CACHE_TTL]; norm_num) rfl rfl⟩

/-- C3 counterexample: with `systemd-run` and `notify-send` both absent, the
fallback `Popen(["notify-send", ...])` raises `FileNotFoundError` inside
`_notify`, and the exception propagates out of `send_files`,
`receive_files`, and `get_devices` — the operations are not total at their
boundary for every external-command outcome. -/
theorem missing_spawn_executables_raise :
    send_files envNone ["/tmp/a.txt"] "mypc" = .error (.fileNotFound "notify-send") ∧
    receive_files envNone "/home/user" = .error (.fileNotFound "notify-send") ∧
    getDevicesE initialState eFail20 nvNone = .error (.fileNotFound "notify-send") := by
  refine ⟨rfl, rfl, ?_⟩
  have h1 : cacheHitB initialState eFail20 = false := by simp [cacheHitB, initialState]
  unfold getDevicesE
  rw [h1]
  rfl
